import Mathlib

/-!
# Verification of the asgiref sync/async bridge specification

This file gives a shallow embedding of the core of the `asgiref`
bidirectional bridge between event-driven (ED, asyncio) code and
thread-driven (TD, blocking) code, together with theorems settling the
frozen claims about it.

The repository snapshot under verification contains only `setup.py` and the
test suite (`tests/test_sync.py`, `tests/test_wsgi.py`); the module
`asgiref/sync.py` that the claims are about is not part of the snapshot.
Following the spec-modelling rule, every definition below is modelled from
the specification's words, adjusted only where a test in the repository
(src/tests) pins a behaviour the spec states differently; each such
adjustment is called out in the doc comment of the definition it affects.
-/

namespace Asgiref

/-! ## Python callables and adapter construction

The spec's adapters `to_async` (`sync_to_async`) and `to_sync`
(`async_to_sync`) validate and wrap a Python object.  We model just the
observable surface the claims need: whether the object is callable, whether
it is a coroutine function, its name, its other attributes, and — for bound
methods — the bound instance. -/

/-- Metadata of a Python function-like callable: whether `asyncio`
classifies it as a coroutine function, its `__name__`, its bound instance
(`__self__`, when it is a bound method, as an opaque object id), and its
other descriptive attributes. -/
structure PyFunc where
  isCoroutineFn : Bool
  name : String
  boundSelf : Option Nat
  attrs : List (String × String)
deriving DecidableEq, Repr

/-- A Python object passed to an adapter: either a function-like callable
or a non-callable value (modelled by an integer, as in the repository test
`test_sync_to_async_fail_non_function`, which passes `1`). -/
inductive PyObject where
  | func (f : PyFunc)
  | intObj (n : Int)
deriving DecidableEq, Repr

/-- Whether the object is callable. -/
def PyObject.isCallable : PyObject → Bool
  | .func _ => true
  | .intObj _ => false

/-- Whether the object is a coroutine function. A plain integer is not. -/
def PyObject.isCoroutineFn : PyObject → Bool
  | .func f => f.isCoroutineFn
  | .intObj _ => false

/-- The error kinds of the bridge, from the spec's error-handling design:
`InvalidKind` (adapter applied to the wrong class of callable, carrying its
message), `InvalidConfig` (an executor supplied together with
sensitive=true), `InvalidContext` (`to_sync` invoked while already inside a
running loop on the current thread). -/
inductive BridgeError where
  | invalidKind (msg : String)
  | invalidConfig
  | invalidContext
deriving DecidableEq, Repr

/-- The async-callable adapter value produced by `to_async`.  Modelled from
the spec: it records the wrapped callable's metadata (name, attributes,
bound instance copied onto the adapter) and its dispatch configuration. -/
structure SyncToAsyncAdapter where
  name : String
  boundSelf : Option Nat
  attrs : List (String × String)
  threadSensitive : Bool
  executor : Option Nat
deriving DecidableEq, Repr

/-- Modelled from the spec: construction of `to_async`
(`asgiref.sync.sync_to_async`, absent from the snapshot).  Spec §6:
"Validates kind: callable must not be a coroutine function; otherwise
raises InvalidKind with message `\x22<name> can only be applied to sync
functions.\x22`"; spec §4.5: "executor: only permitted when sensitive=false;
if sensitive=true with an executor supplied, raise InvalidConfig".
Two points the spec leaves open are fixed by the repository tests:
`test_sync_to_async_fail_non_function` (tests/test_sync.py:48) shows that a
non-callable object is rejected by the same kind check with the same
message, and `test_sync_to_async_uses_executor` (tests/test_sync.py:616)
exercises the executor check only on a callable that already passed the
kind check, so kind validation is performed first. -/
def syncToAsync (obj : PyObject) (threadSensitive : Bool) (executor : Option Nat) :
    Except BridgeError SyncToAsyncAdapter :=
  if ¬ obj.isCallable ∨ obj.isCoroutineFn then
    .error (.invalidKind "sync_to_async can only be applied to sync functions.")
  else if threadSensitive ∧ executor.isSome then
    .error .invalidConfig
  else
    match obj with
    | .func f => .ok ⟨f.name, f.boundSelf, f.attrs, threadSensitive, executor⟩
    | .intObj _ => .error (.invalidKind "sync_to_async can only be applied to sync functions.")

/-- The sync-callable adapter value produced by `to_sync`, with the wrapped
callable's metadata copied onto it. -/
structure AsyncToSyncAdapter where
  name : String
  boundSelf : Option Nat
  attrs : List (String × String)
deriving DecidableEq, Repr

/-- Modelled from the spec: construction of `to_sync`
(`asgiref.sync.async_to_sync`, absent from the snapshot).  Spec §6:
"Validates kind: must be a coroutine function; otherwise InvalidKind with
message `\x22<name> can only be applied to async functions.\x22`.  Preserves
name and descriptor attributes; method-bound form surfaces the bound
instance." -/
def asyncToSync (obj : PyObject) : Except BridgeError AsyncToSyncAdapter :=
  match obj with
  | .func f =>
      if f.isCoroutineFn then .ok ⟨f.name, f.boundSelf, f.attrs⟩
      else .error (.invalidKind "async_to_sync can only be applied to async functions.")
  | .intObj _ => .error (.invalidKind "async_to_sync can only be applied to async functions.")

end Asgiref

namespace Asgiref

/-! ### Claims C4, C7, C8: adapter construction -/

/-- **C4, counterexample.** The claim says `to_async` raises InvalidKind
exactly when its argument is a coroutine function, and that every argument
that is not a coroutine function passes kind validation.  The repository's
own test `test_sync_to_async_fail_non_function` (tests/test_sync.py:48-57)
shows this is false: the non-callable integer `1` is not a coroutine
function, yet `sync_to_async(1)` raises the InvalidKind error with the same
message. -/
theorem c4_invalid_kind_counterexample :
    (PyObject.intObj 1).isCoroutineFn = false ∧
      syncToAsync (PyObject.intObj 1) true none =
        .error (.invalidKind "sync_to_async can only be applied to sync functions.") := by
  constructor <;> rfl

/-- **C4 (amended).** `to_async` raises InvalidKind with message
"sync_to_async can only be applied to sync functions." exactly when its
argument is a coroutine function or is not callable; every callable
argument that is not a coroutine function passes kind validation and, when
the executor configuration is valid, is accepted. -/
theorem c4_invalid_kind_iff (obj : PyObject) (ts : Bool) (ex : Option Nat) :
    (syncToAsync obj ts ex =
        .error (.invalidKind "sync_to_async can only be applied to sync functions.") ↔
      (obj.isCoroutineFn = true ∨ obj.isCallable = false)) ∧
    (obj.isCallable = true → obj.isCoroutineFn = false → ¬ (ts = true ∧ ex.isSome) →
      ∃ ad, syncToAsync obj ts ex = .ok ad) := by
  cases obj with
  | func f =>
      by_cases hk : f.isCoroutineFn = true
      · simp [syncToAsync, PyObject.isCallable, PyObject.isCoroutineFn, hk]
      · simp only [Bool.not_eq_true] at hk
        by_cases hc : ts = true ∧ ex.isSome = true
        · constructor
          · simp [syncToAsync, PyObject.isCallable, PyObject.isCoroutineFn, hk, hc]
          · intro _ _ hncfg
            exact absurd hc hncfg
        · constructor
          · simp [syncToAsync, PyObject.isCallable, PyObject.isCoroutineFn, hk, hc]
          · intro _ _ _
            refine ⟨⟨f.name, f.boundSelf, f.attrs, ts, ex⟩, ?_⟩
            simp [syncToAsync, PyObject.isCallable, PyObject.isCoroutineFn, hk, hc]
  | intObj n =>
      constructor
      · simp [syncToAsync, PyObject.isCallable, PyObject.isCoroutineFn]
      · intro hc
        simp [PyObject.isCallable] at hc

/-- **C4, witness** for the amended claim: a concrete plain sync function
is accepted, and a concrete coroutine function is rejected with the
InvalidKind message. -/
theorem c4_invalid_kind_iff_witness :
    (∃ ad, syncToAsync (PyObject.func ⟨false, "sync_function", none, []⟩) true none = .ok ad) ∧
      (syncToAsync (PyObject.func ⟨true, "test_function", none, []⟩) true none =
          .error (.invalidKind "sync_to_async can only be applied to sync functions.") ↔
        ((PyObject.func ⟨true, "test_function", none, []⟩).isCoroutineFn = true ∨
          (PyObject.func ⟨true, "test_function", none, []⟩).isCallable = false)) :=
  ⟨(c4_invalid_kind_iff (PyObject.func ⟨false, "sync_function", none, []⟩) true none).2
      rfl rfl (by simp),
    (c4_invalid_kind_iff (PyObject.func ⟨true, "test_function", none, []⟩) true none).1⟩

/-- **C7, counterexample.** The claim says constructing `to_async` with
sensitive=true and a supplied executor raises InvalidConfig for *every*
callable.  Kind validation runs first (spec §4.5 states "f is not a
coroutine function" as a precondition, and §6 describes kind validation as
the constructor's validation), so a coroutine function together with an
executor is rejected with InvalidKind, not InvalidConfig. -/
theorem c7_invalid_config_counterexample :
    syncToAsync (PyObject.func ⟨true, "async_function", none, []⟩) true (some 0) =
        .error (.invalidKind "sync_to_async can only be applied to sync functions.") ∧
      syncToAsync (PyObject.func ⟨true, "async_function", none, []⟩) true (some 0) ≠
        .error .invalidConfig := by
  constructor
  · rfl
  · intro h
    simp [syncToAsync, PyObject.isCallable, PyObject.isCoroutineFn] at h

/-- **C7 (amended).** For every callable that passes kind validation (a
callable that is not a coroutine function), constructing `to_async` with
sensitive=true and any supplied executor raises InvalidConfig synchronously
at adapter-construction time. -/
theorem c7_invalid_config (f : PyFunc) (e : Nat) (hk : f.isCoroutineFn = false) :
    syncToAsync (PyObject.func f) true (some e) = .error .invalidConfig := by
  simp [syncToAsync, PyObject.isCallable, PyObject.isCoroutineFn, hk]

/-- **C7, witness**: the configuration of `test_sync_to_async_uses_executor`
(a plain sync function, sensitive=true, a custom executor) is rejected with
InvalidConfig. -/
theorem c7_invalid_config_witness :
    syncToAsync (PyObject.func ⟨false, "sync_func", none, []⟩) true (some 0) =
      .error .invalidConfig :=
  c7_invalid_config ⟨false, "sync_func", none, []⟩ 0 rfl

/-- **C8 (confirmed).** Both adapters copy the wrapped callable's name and
other attributes onto the produced adapter value, and expose the bound
instance (`__self__`) of a bound method: whenever construction succeeds,
the adapter's metadata equals the callable's. -/
theorem c8_attribute_preservation :
    (∀ (f : PyFunc) (ts : Bool) (ex : Option Nat) (ad : SyncToAsyncAdapter),
      syncToAsync (PyObject.func f) ts ex = .ok ad →
        ad.name = f.name ∧ ad.attrs = f.attrs ∧ ad.boundSelf = f.boundSelf) ∧
    (∀ (f : PyFunc) (ad : AsyncToSyncAdapter),
      asyncToSync (PyObject.func f) = .ok ad →
        ad.name = f.name ∧ ad.attrs = f.attrs ∧ ad.boundSelf = f.boundSelf) := by
  constructor
  · intro f ts ex ad h
    simp only [syncToAsync, PyObject.isCallable, PyObject.isCoroutineFn] at h
    split at h
    · exact absurd h (by simp)
    · split at h
      · exact absurd h (by simp)
      · obtain ⟨rfl⟩ := Except.ok.inj h
        exact ⟨rfl, rfl, rfl⟩
  · intro f ad h
    simp only [asyncToSync] at h
    split at h
    · obtain ⟨rfl⟩ := Except.ok.inj h
      exact ⟨rfl, rfl, rfl⟩
    · exact absurd h (by simp)

/-- **C8, witness**: a concrete bound method wrapped by each adapter keeps
its name, attributes and bound instance (`test_sync_to_async_method_self_attribute`,
`test_async_to_async_method_self_attribute`). -/
theorem c8_attribute_preservation_witness :
    ((SyncToAsyncAdapter.mk "test_method" (some 7) [("attr_name", "v")] true none).name =
        "test_method" ∧
      (SyncToAsyncAdapter.mk "test_method" (some 7) [("attr_name", "v")] true none).attrs =
        [("attr_name", "v")] ∧
      (SyncToAsyncAdapter.mk "test_method" (some 7) [("attr_name", "v")] true none).boundSelf =
        some 7) ∧
    ((AsyncToSyncAdapter.mk "test_function" (some 3) []).name = "test_function" ∧
      (AsyncToSyncAdapter.mk "test_function" (some 3) []).attrs = [] ∧
      (AsyncToSyncAdapter.mk "test_function" (some 3) []).boundSelf = some 3) :=
  ⟨c8_attribute_preservation.1 ⟨false, "test_method", some 7, [("attr_name", "v")]⟩ true none
      (SyncToAsyncAdapter.mk "test_method" (some 7) [("attr_name", "v")] true none) rfl,
    c8_attribute_preservation.2 ⟨true, "test_function", some 3, []⟩
      (AsyncToSyncAdapter.mk "test_function" (some 3) []) rfl⟩

end Asgiref

namespace Asgiref

/-! ## Invoking the sync-callable produced by `to_sync`

`AsyncToSync.__call__` (absent from the snapshot) decides which event loop
will run the coroutine and on which thread, rejects calls made from a
thread that is itself running an event loop, and transports the
coroutine's value or error back to the blocking caller. -/

/-- An event loop handle: the thread it is bound to and whether it is
currently running. -/
structure Loop where
  thread : Nat
  running : Bool
deriving DecidableEq, Repr

/-- How the bridge obtained a loop for the coroutine. -/
inductive LoopChoice where
  /-- The coroutine was posted onto the already-running main loop known to
  the caller; it runs on that loop's thread. -/
  | scheduledOnMain (thread : Nat)
  /-- The root thread's idle main loop was reused; the coroutine runs on
  the caller (root) thread. -/
  | reusedIdleMain
  /-- A fresh loop was created, bound to the caller thread. -/
  | freshLoop
deriving DecidableEq, Repr

/-- Outcome of one invocation of the sync-callable. -/
inductive CallOutcome (α : Type) where
  /-- The coroutine completed and its value was returned to the caller. -/
  | ok (a : α)
  /-- The coroutine raised; the error re-raises in the caller unchanged. -/
  | userError (e : String)
  /-- The call was rejected with InvalidContext before running anything. -/
  | invalidContext
deriving DecidableEq, Repr

/-- Full observable result of one invocation: the outcome, the loop choice
(none when the call was rejected), the thread the coroutine ran on (none
when it never ran), and the caller's in-flight exception after the call. -/
structure InvokeResult (α : Type) where
  result : CallOutcome α
  choice : Option LoopChoice
  ranOn : Option Nat
  pendingAfter : Option String
deriving DecidableEq, Repr

/-- Lift a coroutine's behaviour (its value or raised error) into a call
outcome, per the spec's propagation policy: "user exceptions raised inside
a coroutine run by call_event_from_blocking re-raise in the TD caller
unchanged". -/
def CallOutcome.ofCoro {α : Type} : Except String α → CallOutcome α
  | .ok v => .ok v
  | .error e => .userError e

/-- Modelled from the spec: invocation of the sync-callable produced by
`to_sync` (`AsyncToSync.__call__`, absent from the snapshot).

Inputs: the calling thread, the root thread, `curLoop` — the loop the
caller's own thread is running, if any (the registry's
`current_loop_of(caller)`), `mainLoop` — the main loop known to the
caller (the loop associated with the root thread, or the outer loop
recorded for a sticky-worker job's thread), the caller's in-flight
exception, and the coroutine's behaviour.

Spec §4.4: if `current_loop_of(caller_thread)` is not None, raise
InvalidContext (the coroutine is not created or run); if the caller is the
root thread and a main loop is associated with it but not currently
running, reuse it; otherwise create a fresh loop bound to the caller
thread.  One case the spec states differently is pinned by the repository
test `test_async_to_sync_to_async` (tests/test_sync.py:155-180): when the
known main loop is currently running (and the caller is a different
thread, e.g. a sticky-worker thread), the coroutine is scheduled onto that
running loop — the test asserts the coroutine ran on the main thread, "to
make sure that it didn't needlessly make a new async loop" — rather than
on a fresh loop bound to the caller.  The caller's in-flight exception is
untouched: the bridge surfaces only the coroutine's own value or error
(spec §7; test_async_to_sync_in_except, tests/test_sync.py:304-319). -/
def asyncToSyncCall {α : Type} (caller root : Nat) (curLoop : Option Loop)
    (mainLoop : Option Loop) (pending : Option String) (coro : Except String α) :
    InvokeResult α :=
  if (curLoop.map Loop.running).getD false then
    ⟨.invalidContext, none, none, pending⟩
  else
    match mainLoop with
    | some L =>
        if L.running then
          ⟨.ofCoro coro, some (.scheduledOnMain L.thread), some L.thread, pending⟩
        else if caller = root then
          ⟨.ofCoro coro, some .reusedIdleMain, some caller, pending⟩
        else
          ⟨.ofCoro coro, some .freshLoop, some caller, pending⟩
    | none => ⟨.ofCoro coro, some .freshLoop, some caller, pending⟩

/-! ### Claims C3, C6, C9: loop choice and invocation-time behaviour -/

/-- **C3, counterexample.** The claim says that invoked on a thread other
than the root thread — in particular a worker executing a sticky-worker
job — the bridge creates a fresh loop bound to the caller and runs the
coroutine on the caller thread.  In the configuration of
`test_async_to_sync_to_async` (caller = worker thread 2, root = 0, the
main loop bound to thread 0 and running), the coroutine instead runs on
the main loop's thread 0, not on the caller, and the main loop is reused
even though the caller is not root and the loop is running. -/
theorem c3_loop_choice_counterexample :
    (asyncToSyncCall 2 0 none (some ⟨0, true⟩) none (Except.ok 65)).ranOn = some 0 ∧
      (asyncToSyncCall 2 0 none (some ⟨0, true⟩) none (Except.ok 65)).ranOn ≠ some 2 ∧
      (asyncToSyncCall 2 0 none (some ⟨0, true⟩) none (Except.ok 65)).choice ≠
        some LoopChoice.freshLoop := by
  refine ⟨rfl, ?_, ?_⟩ <;> simp [asyncToSyncCall]

/-- **C3 (amended).** When the sync-callable is invoked on a thread whose
known main loop is absent or idle and which is not the root thread, a
fresh loop bound to the caller is created and the coroutine runs to
completion on the caller thread; when the known main loop is currently
running, the coroutine is scheduled onto it and runs on the main loop's
thread (this covers a worker thread executing a sticky-worker job); and
the idle main loop is reused only when the caller is the root thread. -/
theorem c3_loop_choice :
    (∀ (caller root : Nat) (ml : Option Loop) (pending : Option String)
        (coro : Except String Nat),
      caller ≠ root → (∀ L, ml = some L → L.running = false) →
        (asyncToSyncCall caller root none ml pending coro).choice =
            some LoopChoice.freshLoop ∧
          (asyncToSyncCall caller root none ml pending coro).ranOn = some caller) ∧
    (∀ (caller root : Nat) (L : Loop) (pending : Option String)
        (coro : Except String Nat),
      L.running = true →
        (asyncToSyncCall caller root none (some L) pending coro).choice =
            some (LoopChoice.scheduledOnMain L.thread) ∧
          (asyncToSyncCall caller root none (some L) pending coro).ranOn =
            some L.thread) ∧
    (∀ (caller root : Nat) (ml : Option Loop) (pending : Option String)
        (coro : Except String Nat),
      (asyncToSyncCall caller root none ml pending coro).choice =
          some LoopChoice.reusedIdleMain →
        caller = root ∧ ∃ L, ml = some L ∧ L.running = false) := by
  refine ⟨?_, ?_, ?_⟩
  · intro caller root ml pending coro hne hidle
    cases ml with
    | none => exact ⟨rfl, rfl⟩
    | some L =>
        have hL := hidle L rfl
        simp [asyncToSyncCall, hL, hne]
  · intro caller root L pending coro hrun
    simp [asyncToSyncCall, hrun]
  · intro caller root ml pending coro h
    cases ml with
    | none => simp [asyncToSyncCall] at h
    | some L =>
        by_cases hrun : L.running = true
        · simp [asyncToSyncCall, hrun] at h
        · simp only [Bool.not_eq_true] at hrun
          by_cases hcr : caller = root
          · exact ⟨hcr, L, rfl, hrun⟩
          · simp [asyncToSyncCall, hrun, hcr] at h

/-- **C3, witness** for the amended claim: a non-root thread with no known
main loop gets a fresh loop and runs the coroutine on itself, and the
worker-thread configuration of `test_async_to_sync_to_async` schedules onto
the running main loop bound to thread 0. -/
theorem c3_loop_choice_witness :
    ((asyncToSyncCall 5 0 none none none (Except.ok 84)).choice =
        some LoopChoice.freshLoop ∧
      (asyncToSyncCall 5 0 none none none (Except.ok 84)).ranOn = some 5) ∧
    ((asyncToSyncCall 2 0 none (some ⟨0, true⟩) none (Except.ok 65)).choice =
        some (LoopChoice.scheduledOnMain 0) ∧
      (asyncToSyncCall 2 0 none (some ⟨0, true⟩) none (Except.ok 65)).ranOn = some 0) :=
  ⟨c3_loop_choice.1 5 0 none none (Except.ok 84) (by decide) (by intro L h; cases h),
    c3_loop_choice.2.1 2 0 ⟨0, true⟩ none (Except.ok 65) rfl⟩

/-- **C6 (confirmed).** Invoking the sync-callable produced by `to_sync`
while an event loop is already running on the current thread raises
InvalidContext at invocation time, and the coroutine is not run (no loop
is chosen and the coroutine runs on no thread). -/
theorem c6_invalid_context {α : Type} (caller root : Nat) (L : Loop)
    (ml : Option Loop) (pending : Option String) (coro : Except String α)
    (hrun : L.running = true) :
    asyncToSyncCall caller root (some L) ml pending coro =
      ⟨.invalidContext, none, none, pending⟩ := by
  simp [asyncToSyncCall, hrun]

/-- **C6, witness**: the configuration of `test_async_to_sync_in_async`
(called on the root thread 0 while its loop is running) is rejected with
InvalidContext and the coroutine never runs. -/
theorem c6_invalid_context_witness :
    asyncToSyncCall 0 0 (some ⟨0, true⟩) (some ⟨0, true⟩) none (Except.ok 84) =
      ⟨.invalidContext, none, none, none⟩ :=
  c6_invalid_context 0 0 ⟨0, true⟩ (some ⟨0, true⟩) none (Except.ok 84) rfl

/-- **C9 (confirmed).** Invoking the sync-callable while the caller is
handling an unrelated exception (a pending exception is in flight and no
event loop runs on the current thread) returns the coroutine's value
normally: the outcome is the value, not the pending exception, and the
pending exception is left exactly as it was (neither re-raised as the
call's outcome nor cleared). -/
theorem c9_call_in_except (caller root : Nat) (ml : Option Loop)
    (pend : String) (v : Nat) :
    (asyncToSyncCall caller root none ml (some pend) (Except.ok v)).result =
        CallOutcome.ok v ∧
      (asyncToSyncCall caller root none ml (some pend) (Except.ok v)).pendingAfter =
        some pend := by
  cases ml with
  | none => exact ⟨rfl, rfl⟩
  | some L =>
      by_cases hrun : L.running = true
      · simp [asyncToSyncCall, hrun, CallOutcome.ofCoro]
      · simp only [Bool.not_eq_true] at hrun
        by_cases hcr : caller = root <;>
          simp [asyncToSyncCall, hrun, hcr, CallOutcome.ofCoro]

end Asgiref

namespace Asgiref

/-! ## The dispatch semantics of nested bridge chains

Modelled from the spec's design: `call_blocking_from_event` (§4.5) decides
the thread of every TD job from the calling ED task's context
(`sensitive_worker_override`, `parent_blocking_thread`), and
`call_event_from_blocking` (§4.4 step 3) plumbs that context into the
nested ED task.  We embed bridge programs as a small syntax of alternating
TD and ED frames and interpret them, producing the list of threads on
which each TD frame, and each recorded observation, ran.  Where ED frames
themselves run does not enter the dispatch decision, so the interpreter
does not track it (that part is modelled by `asyncToSyncCall` above). -/

/-- The root thread `T0`, on which the core was first initialized. -/
def rootThread : Nat := 0

/-- The dedicated thread `Ts` of the global sensitive worker `W0`.
Modelled from the spec: the worker is lazily started in the source, but is
bound to one fixed dedicated thread for the life of the process, so we
give that thread a fixed id, distinct from the root thread.  Ad-hoc
workers (context-scoped sticky workers, executor pool threads) receive
fresh ids from an allocator that starts above both. -/
def globalWorkerThread : Nat := 1

/-- Per-ED-task context, propagated across `await` (spec §3):
`override` is `sensitive_worker_override` (the sticky worker thread forced
by an enclosing sensitive context), `parentThread` is
`parent_blocking_thread` (the TD thread awaiting this task, when the task
serves an event-from-blocking call). -/
structure Ctx where
  override : Option Nat
  parentThread : Option Nat
deriving DecidableEq, Repr

/-- The `sensitive_worker_override` of the ambient TD job's originating ED
task, if the current TD frame was dispatched by a bridge at all. -/
def ambientOverride : Option Ctx → Option Nat
  | none => none
  | some c => c.override

/-- Allocator for the threads of ad-hoc workers (context-scoped sticky
workers and executor pool threads). -/
structure Alloc where
  nextId : Nat
deriving DecidableEq, Repr

/-- Observable events of a run: a TD frame began on a thread, a program
point recorded the current thread into a slot, a sensitive context started
its scoped sticky worker. -/
inductive Ev where
  | td (thread : Nat)
  | obs (slot : Nat) (thread : Nat)
  | ctxEnter (worker : Nat)
deriving DecidableEq, Repr

/-- The thread an event happened on (for a context entry, the thread of
the worker it started). -/
def Ev.thread : Ev → Nat
  | .td t => t
  | .obs _ t => t
  | .ctxEnter w => w

mutual
/-- TD (blocking) code: finish, record the current thread into a slot, or
enter the event-from-blocking bridge (`to_sync`) with an ED body. -/
inductive SyncProg where
  | ret : SyncProg
  | record (slot : Nat) (k : SyncProg) : SyncProg
  | callToSync (body : AsyncProg) (k : SyncProg) : SyncProg

/-- ED (coroutine) code: finish, await the blocking-from-event bridge
(`to_async`, with its sensitive flag) on a TD body, run a body inside a
sensitive context, or run two sibling tasks. -/
inductive AsyncProg where
  | ret : AsyncProg
  | awaitToAsync (sensitive : Bool) (body : SyncProg) (k : AsyncProg) : AsyncProg
  | sensitiveCtx (body : AsyncProg) (k : AsyncProg) : AsyncProg
  | par (left right : AsyncProg) : AsyncProg
end

/-- Modelled from the spec: the dispatch decision of
`call_blocking_from_event` with sensitive=true (§4.5's table, top to
bottom): an ED task with `sensitive_worker_override = W` dispatches to
`W`; an ED task initiated — directly or through nested bridges — from TD
on a thread `Tc` (root or not) runs the job on `Tc` itself; an ED task
with no TD ancestor dispatches to the global sticky worker. -/
def stickyThread (c : Ctx) : Nat :=
  match c.override with
  | some w => w
  | none =>
      match c.parentThread with
      | some tp => tp
      | none => globalWorkerThread

mutual
/-- Modelled from the spec: run TD code on thread `t`.  `c` is the context
of the ED task whose bridge dispatched this TD frame (`none` for the chain
origin).  `call_event_from_blocking` (§4.4 step 3) gives the nested ED
task a context inheriting the ambient `sensitive_worker_override` and
recording the calling thread as `parent_blocking_thread`.  Returns the
allocator and the events produced. -/
def runSync : SyncProg → Nat → Option Ctx → Alloc → Alloc × List Ev
  | .ret, _, _, a => (a, [])
  | .record slot k, t, c, a =>
      let r := runSync k t c a
      (r.1, .obs slot t :: r.2)
  | .callToSync body k, t, c, a =>
      let r1 := runAsync body ⟨ambientOverride c, some t⟩ a
      let r2 := runSync k t c r1.1
      (r2.1, r1.2 ++ r2.2)

/-- Modelled from the spec: run ED code with task context `c`.  A
sensitive await dispatches its TD body to `stickyThread c`; a
non-sensitive await submits it to the executor pool, which may run it on
any pool thread (a fresh id); sibling tasks contribute their events in
turn (the dispatch decision of each task depends only on that task's own
context, so interleaving does not change which thread any job runs on).

A sensitive context entered while no sensitive context is active starts a
scoped sticky worker on a fresh thread and overrides the context for its
body.  One point the spec states differently is pinned by the repository
test `test_thread_sensitive_nested_context` (tests/test_sync.py:422-438):
the spec says "Nested contexts stack: innermost wins", but the test
asserts that the job initiated inside the inner of two nested contexts
runs on the *same* thread as the job initiated in the enclosing context
alone — so entering a context while one is already active starts no new
worker and leaves the enclosing context's override in place (the
outermost context wins). -/
def runAsync : AsyncProg → Ctx → Alloc → Alloc × List Ev
  | .ret, _, a => (a, [])
  | .awaitToAsync sensitive body k, c, a =>
      if sensitive then
        let w := stickyThread c
        let r1 := runSync body w (some c) a
        let r2 := runAsync k c r1.1
        (r2.1, .td w :: r1.2 ++ r2.2)
      else
        let p := a.nextId
        let r1 := runSync body p (some c) ⟨a.nextId + 1⟩
        let r2 := runAsync k c r1.1
        (r2.1, .td p :: r1.2 ++ r2.2)
  | .sensitiveCtx body k, c, a =>
      match c.override with
      | some _ =>
          let r1 := runAsync body c a
          let r2 := runAsync k c r1.1
          (r2.1, r1.2 ++ r2.2)
      | none =>
          let w := a.nextId
          let r1 := runAsync body ⟨some w, c.parentThread⟩ ⟨a.nextId + 1⟩
          let r2 := runAsync k c r1.1
          (r2.1, .ctxEnter w :: r1.2 ++ r2.2)
  | .par x y, c, a =>
      let r1 := runAsync x c a
      let r2 := runAsync y c r1.1
      (r2.1, r1.2 ++ r2.2)
end

mutual
/-- A plain bridge chain: every await is sensitive and no sensitive
context is entered (TD side). -/
def SyncProg.plain : SyncProg → Bool
  | .ret => true
  | .record _ k => k.plain
  | .callToSync body k => body.plain && k.plain

/-- A plain bridge chain: every await is sensitive and no sensitive
context is entered (ED side). -/
def AsyncProg.plain : AsyncProg → Bool
  | .ret => true
  | .awaitToAsync sensitive body k => sensitive && body.plain && k.plain
  | .sensitiveCtx _ _ => false
  | .par x y => x.plain && y.plain
end

/-- With no sensitive-context override, the dispatch decision sends a
sensitive job to the TD ancestor's thread when there is one, and to the
global sticky worker otherwise. -/
theorem stickyThread_override_none (c : Ctx) (h : c.override = none) :
    stickyThread c = c.parentThread.getD globalWorkerThread := by
  cases c with
  | mk ov pt =>
      cases h
      cases pt <;> rfl

mutual
/-- TD-affinity invariant, TD side: in a plain chain with no ambient
override, every event of a TD frame running on thread `t` happens on
`t`. -/
theorem runSync_plain_thread : ∀ (p : SyncProg) (t : Nat) (c : Option Ctx) (a : Alloc),
    p.plain = true → ambientOverride c = none →
    ∀ ev ∈ (runSync p t c a).2, ev.thread = t
  | .ret, t, c, a, _, _ => by
      intro ev hev
      simp [runSync] at hev
  | .record slot k, t, c, a, hp, hc => by
      intro ev hev
      simp only [runSync, List.mem_cons] at hev
      rcases hev with rfl | hev
      · rfl
      · exact runSync_plain_thread k t c a (by simpa [SyncProg.plain] using hp) hc ev hev
  | .callToSync body k, t, c, a, hp, hc => by
      intro ev hev
      have hps : body.plain = true ∧ k.plain = true := by
        simpa [SyncProg.plain, Bool.and_eq_true] using hp
      simp only [runSync, List.mem_append] at hev
      rcases hev with hev | hev
      · have h := runAsync_plain_thread body ⟨ambientOverride c, some t⟩ a hps.1 hc ev hev
        simpa using h
      · exact runSync_plain_thread k t c
          (runAsync body ⟨ambientOverride c, some t⟩ a).1 hps.2 hc ev hev

/-- TD-affinity invariant, ED side: in a plain chain, an ED task with no
override runs every TD frame it spawns (at any nesting depth) on its TD
ancestor's thread — or on the global sticky worker's thread when it has no
TD ancestor. -/
theorem runAsync_plain_thread : ∀ (q : AsyncProg) (c : Ctx) (a : Alloc),
    q.plain = true → c.override = none →
    ∀ ev ∈ (runAsync q c a).2, ev.thread = c.parentThread.getD globalWorkerThread
  | .ret, c, a, _, _ => by
      intro ev hev
      simp [runAsync] at hev
  | .awaitToAsync sensitive body k, c, a, hq, hc => by
      intro ev hev
      have hqs : sensitive = true ∧ body.plain = true ∧ k.plain = true := by
        simpa [AsyncProg.plain, Bool.and_eq_true, and_assoc] using hq
      rw [hqs.1] at hev
      simp only [runAsync, if_true, List.mem_cons, List.mem_append] at hev
      have hw : stickyThread c = c.parentThread.getD globalWorkerThread :=
        stickyThread_override_none c hc
      rcases hev with (rfl | hev) | hev
      · exact hw
      · have h := runSync_plain_thread body (stickyThread c) (some c) a hqs.2.1 hc ev hev
        rw [h, hw]
      · exact runAsync_plain_thread k c
          (runSync body (stickyThread c) (some c) a).1 hqs.2.2 hc ev hev
  | .sensitiveCtx body k, c, a, hq, _ => by
      intro ev _
      simp [AsyncProg.plain] at hq
  | .par x y, c, a, hq, hc => by
      intro ev hev
      have hqs : x.plain = true ∧ y.plain = true := by
        simpa [AsyncProg.plain, Bool.and_eq_true] using hq
      simp only [runAsync, List.mem_append] at hev
      rcases hev with hev | hev
      · exact runAsync_plain_thread x c a hqs.1 hc ev hev
      · exact runAsync_plain_thread y c (runAsync x c a).1 hqs.2 hc ev hev
end

end Asgiref

namespace Asgiref

/-! ### Claims C1, C2, C5: thread affinity of nested chains -/

/-- The TD→ED→TD→ED chain of `test_thread_sensitive_double_nested_sync`
(tests/test_sync.py:447-477): sync code calls `to_sync(level1)`; `level1`
awaits `to_async(level2)`; `level2` calls `to_sync(level3)`; `level3`
awaits `to_async(level4)`; `level4` records its thread. -/
def doubleNestedChain : SyncProg :=
  .callToSync
    (.awaitToAsync true
      (.callToSync (.awaitToAsync true (.record 1 .ret) .ret) .ret)
      .ret)
    .ret

/-- **C1 (confirmed).** Every nested bridge chain initiated from
thread-driven code on a thread `tc` — alternating `to_sync` and sensitive
`to_async` bridges, to any nesting depth — runs every TD-side frame (and
hence records every observation) on `tc` itself. -/
theorem c1_td_chain_affinity (p : SyncProg) (tc : Nat) (a : Alloc)
    (hp : p.plain = true) :
    ∀ ev ∈ (runSync p tc none a).2, ev.thread = tc :=
  runSync_plain_thread p tc none a hp rfl

/-- **C1, witness**: the double-nested chain started on the root thread
records the root thread at its innermost TD frame. -/
theorem c1_td_chain_affinity_witness :
    Ev.obs 1 rootThread ∈ (runSync doubleNestedChain rootThread none ⟨2⟩).2 ∧
      ∀ ev ∈ (runSync doubleNestedChain rootThread none ⟨2⟩).2, ev.thread = rootThread :=
  ⟨by decide, c1_td_chain_affinity doubleNestedChain rootThread ⟨2⟩ (by decide)⟩

/-- The nested sensitive contexts of `test_thread_sensitive_nested_context`
(tests/test_sync.py:422-438): inside an outer `SensitiveContext` a job
records its thread (slot 1), then inside an inner nested context another
job records its thread (slot 2). -/
def nestedContextProg : AsyncProg :=
  .sensitiveCtx
    (.awaitToAsync true (.record 1 .ret)
      (.sensitiveCtx (.awaitToAsync true (.record 2 .ret) .ret) .ret))
    .ret

/-- The thread recorded into a slot, if any: the first `obs` event for the
slot in a run's event list. -/
def recordedAt : List Ev → Nat → Option Nat
  | [], _ => none
  | .obs s t :: rest, slot => if s = slot then some t else recordedAt rest slot
  | _ :: rest, slot => recordedAt rest slot

/-- **C2, counterexample.** The claim says the sensitive job initiated
inside the inner of two nested contexts runs on the inner context's own
sticky worker, on a thread distinct from the one used by jobs initiated
in the enclosing context alone.  The repository's own test
`test_thread_sensitive_nested_context` (tests/test_sync.py:422-438) —
which the claim cites — asserts the opposite: `result_1` (recorded in the
enclosing context alone) and `result_2` (recorded inside the inner nested
context) hold the *same* thread.  Concretely, running the nested-context
program from an ED task outside any context with the allocator at 2, both
slots record thread 2: the threads are equal, not distinct. -/
theorem c2_nested_context_counterexample :
    recordedAt (runAsync nestedContextProg ⟨none, none⟩ ⟨2⟩).2 1 =
        recordedAt (runAsync nestedContextProg ⟨none, none⟩ ⟨2⟩).2 2 ∧
      recordedAt (runAsync nestedContextProg ⟨none, none⟩ ⟨2⟩).2 1 = some 2 ∧
      recordedAt (runAsync nestedContextProg ⟨none, none⟩ ⟨2⟩).2 2 = some 2 := by
  refine ⟨?_, ?_, ?_⟩ <;> decide

/-- **C2 (amended).** When sensitive contexts are nested, the outermost
context wins: entering a context while a sensitive context is already
active starts no new worker, and a sensitive=true TD job initiated inside
the inner context is dispatched to the enclosing context's sticky worker,
so it runs on the same worker thread as jobs initiated in the enclosing
context alone.  Whatever the enclosing task's `parent_blocking_thread`
and allocator state, the run starts exactly one scoped worker (one
`ctxEnter`), and both the enclosing context's job and the nested inner
context's job run and record on that worker's thread. -/
theorem c2_nested_context_outermost (pt : Option Nat) (a : Alloc) :
    (runAsync nestedContextProg ⟨none, pt⟩ a).2 =
      [.ctxEnter a.nextId, .td a.nextId, .obs 1 a.nextId,
        .td a.nextId, .obs 2 a.nextId] := by
  simp [nestedContextProg, runAsync, runSync, stickyThread]

/-- The ED-originated chain of `test_thread_sensitive_outside_async`
(tests/test_sync.py:365-395): two sibling tasks, `outer` (a TD job that
calls `to_sync(middle)`, which awaits the TD job `inner` recording slot 1)
and a direct TD job `inner2` recording slot 2. -/
def outsideAsyncProg : AsyncProg :=
  .par
    (.awaitToAsync true
      (.callToSync (.awaitToAsync true (.record 1 .ret) .ret) .ret)
      .ret)
    (.awaitToAsync true (.record 2 .ret) .ret)

/-- **C5 (confirmed).** In any plain chain originated by an ED task with
no TD ancestor and no sensitive-context override (any nesting of bridges,
any sibling tasks), every sensitive TD job runs on the global sticky
worker's thread — so all such jobs report one and the same thread — and
that thread differs from the root thread. -/
theorem c5_ed_origin_global_worker (q : AsyncProg) (a : Alloc)
    (hq : q.plain = true) :
    (∀ ev ∈ (runAsync q ⟨none, none⟩ a).2, ev.thread = globalWorkerThread) ∧
      globalWorkerThread ≠ rootThread := by
  refine ⟨fun ev hev => ?_, by decide⟩
  simpa using runAsync_plain_thread q ⟨none, none⟩ a hq rfl ev hev

/-- **C5, witness**: in the two-sibling chain of
`test_thread_sensitive_outside_async`, both the nested `inner` job and the
direct `inner2` job record the global worker's thread, every TD frame runs
there, and that thread is not the root thread. -/
theorem c5_ed_origin_global_worker_witness :
    Ev.obs 1 globalWorkerThread ∈ (runAsync outsideAsyncProg ⟨none, none⟩ ⟨2⟩).2 ∧
      Ev.obs 2 globalWorkerThread ∈ (runAsync outsideAsyncProg ⟨none, none⟩ ⟨2⟩).2 ∧
      ((∀ ev ∈ (runAsync outsideAsyncProg ⟨none, none⟩ ⟨2⟩).2,
          ev.thread = globalWorkerThread) ∧
        globalWorkerThread ≠ rootThread) :=
  ⟨by decide, by decide, c5_ed_origin_global_worker outsideAsyncProg ⟨2⟩ (by decide)⟩

end Asgiref
